import Mathlib

/-!
Verification of the multi-tenant admin-dashboard chatbot core.

Strings are modelled as lists of characters (`Str`); the Python string
operations used by the code (`str.strip`, `str.split()`, `str.lower`,
`re.sub(r'\D', '', ·)`) are embedded as functions on `Str`.
-/

/-- Strings of the embedded program are lists of characters. -/
abbrev Str := List Char

/-- Coerce a Lean string literal into the embedded string type. -/
def str (s : String) : Str := s.data

/-- The characters Python's default `str.strip` / `str.split()` treat as
whitespace: space, tab, linefeed, carriage return, vertical tab, form feed. -/
def isPySpace (c : Char) : Bool :=
  c = ' ' || c = '\t' || c = '\n' || c = '\r' || c.toNat = 11 || c.toNat = 12

/-- Python `str.strip()`: remove leading and trailing whitespace. -/
def pyStrip (l : Str) : Str :=
  ((l.dropWhile isPySpace).reverse.dropWhile isPySpace).reverse

/-- One step of splitting on whitespace: a whitespace character opens a new
(word) accumulator, any other character is prepended to the current word. -/
def addChar (c : Char) (ws : List Str) : List Str :=
  if isPySpace c then [] :: ws
  else
    match ws with
    | [] => [[c]]
    | w :: rest => (c :: w) :: rest

/-- Python `str.split()` with no separator: maximal runs of non-whitespace
characters, with no empty words. -/
def pyWords (l : Str) : List Str :=
  (l.foldr addChar []).filter (· ≠ [])

/-- ASCII lower-casing of one character (Python `str.lower` restricted to the
ASCII range the program manipulates). -/
def asciiLower (c : Char) : Char :=
  if h : 65 ≤ c.toNat ∧ c.toNat ≤ 90 then
    ⟨⟨⟨c.toNat + 32, by omega⟩⟩, by
      show Nat.isValidChar (c.toNat + 32)
      exact Or.inl (by omega)⟩
  else c

/-- Python `str.lower()`. -/
def pyLower (l : Str) : Str := l.map asciiLower

/-- `re.sub(r'\D', '', s)`: keep only decimal digits. -/
def keepDigits (l : Str) : Str := l.filter (·.isDigit)

/-!
## LeadParser (src/parsers/lead_parser.py)
-/

/-- `LeadParser.parse_full_name`: `name_parts = full_name_str.strip().split()`;
zero parts → `("", None)`, one part → `(part, None)`, otherwise
`(" ".join(name_parts[:-1]), name_parts[-1])`. -/
def parse_full_name (full_name_str : Str) : Str × Option Str :=
  let name_parts := pyWords (pyStrip full_name_str)
  if name_parts.length = 0 then ([], none)
  else if name_parts.length = 1 then (name_parts.headI, none)
  else (List.intercalate [' '] name_parts.dropLast, name_parts.getLast?)

/-- The normalized lead record produced by `LeadParser.normalize_lead_data`
(the Python dict with keys first_name/last_name/email/phone; `last_name` may
be `None`). -/
structure LeadData where
  first_name : Str
  last_name : Option Str
  email : Str
  phone : Str
deriving DecidableEq, Repr

/-- `LeadParser.normalize_lead_data`: split the name via `parse_full_name`,
lower-case and strip the email, and delete every non-digit of the phone. -/
def normalize_lead_data (name email phone : Str) : LeadData :=
  let p := parse_full_name name
  { first_name := p.1
    last_name := p.2
    email := pyStrip (pyLower email)
    phone := keepDigits phone }

/-- The name "re-formed from first_name and last_name" of a normalized record
(used to state idempotence of normalization). -/
def rebuild_name (r : LeadData) : Str :=
  match r.last_name with
  | some l => r.first_name ++ ' ' :: l
  | none => r.first_name

/-- ASCII upper-casing of one character (Python `str.upper` on the ASCII
range; used only to build reply strings). -/
def asciiUpper (c : Char) : Char :=
  if h : 97 ≤ c.toNat ∧ c.toNat ≤ 122 then
    ⟨⟨⟨c.toNat - 32, by omega⟩⟩, by
      show Nat.isValidChar (c.toNat - 32)
      exact Or.inl (by omega)⟩
  else c

/-- Python `str.upper()`. -/
def pyUpper (l : Str) : Str := l.map asciiUpper

/-- Python truthiness of an optional string (`if x:`): `None` and the empty
string are falsy. -/
def optTruthy : Option Str → Bool
  | some s => !s.isEmpty
  | none => false

/-!
## ZohoAuthManager (src/console_chatbot/zoho_auth_manager.py)

The manager's credential fields (`client_id`, `client_secret`,
`accounts_url`) and its mutable state (`_current_access_token`,
`_access_token_expiry_time`, plus the content of the tenant's refresh-token
file) are modelled explicitly.  `time.time()` is passed in as `now` (the code
reads the clock twice inside one call; the model uses a single timestamp for
the call).  The outcome of the single possible network POST to the token
endpoint is passed in as a `TokenResponse`; a JSON body lacking `expires_in`
is represented by `ok tok 3600` (the code's `.get("expires_in", 3600)`).
-/

structure ZohoAuthConfig where
  client_id : Str
  client_secret : Str
  accounts_url : Str
deriving DecidableEq, Repr

/-- Mutable state of a `ZohoAuthManager` plus the persisted refresh-token
file (`none` = the file does not exist). -/
structure AuthState where
  current_access_token : Option Str
  access_token_expiry_time : Int
  refresh_token_file : Option Str
deriving DecidableEq, Repr

/-- Outcome of the POST to `{accounts_url}/oauth/v2/token`:
a JSON body containing `access_token`, a JSON body without it (carrying an
`error` field), or a transport/JSON failure (RequestException etc.). -/
inductive TokenResponse where
  | ok (access_token : Str) (expires_in : Int)
  | err (error : Str)
  | httpError
deriving DecidableEq, Repr

/-- Result of one `get_access_token` call: the returned value, the state
after the call, and how many network POSTs were made. -/
structure AuthResult where
  result : Option Str
  state : AuthState
  net_calls : Nat
deriving DecidableEq, Repr

/-- `ZohoAuthManager.get_access_token`: return the cached token if truthy and
unexpired; otherwise load the refresh token from the file (stripped; missing
file or blank content aborts), check the credentials, POST the
refresh-token grant, and on success cache the token with expiry
`now + expires_in - 60`; an `invalid_code`/`invalid_grant` error deletes the
refresh-token file; every failure returns `None`. -/
def get_access_token (cfg : ZohoAuthConfig) (st : AuthState) (now : Int)
    (resp : TokenResponse) : AuthResult :=
  if optTruthy st.current_access_token ∧ now < st.access_token_expiry_time then
    ⟨st.current_access_token, st, 0⟩
  else
    match st.refresh_token_file with
    | none => ⟨none, st, 0⟩
    | some contents =>
      let refresh_token := pyStrip contents
      if refresh_token.isEmpty then ⟨none, st, 0⟩
      else if cfg.client_id.isEmpty || cfg.client_secret.isEmpty
          || cfg.accounts_url.isEmpty then ⟨none, st, 0⟩
      else
        match resp with
        | .ok access_token expires_in =>
          ⟨some access_token,
            { st with
              current_access_token := some access_token
              access_token_expiry_time := now + expires_in - 60 }, 1⟩
        | .err e =>
          if e = str "invalid_code" ∨ e = str "invalid_grant" then
            ⟨none, { st with refresh_token_file := none }, 1⟩
          else
            ⟨none, st, 1⟩
        | .httpError => ⟨none, st, 1⟩

/-!
### Interleaved executions of `get_access_token`

The same method, cut into its atomic phases so that two concurrent callers
(CPython threads; the GIL releases during the blocking POST) can interleave:
`check` performs the cached-token check, the refresh-token load and the
credential check; `net` issues the POST; `commit` processes the response.
-/

inductive RefreshPC where
  | check
  | net
  | commit
  | done
deriving DecidableEq, Repr

/-- One caller of `get_access_token`: its program counter and (once done) its
return value. -/
structure RefreshThread where
  pc : RefreshPC
  result : Option Str
deriving DecidableEq, Repr

/-- State shared by the concurrent callers: the manager's fields and the
number of network POSTs issued so far. -/
structure SharedAuth where
  st : AuthState
  net_calls : Nat
deriving DecidableEq, Repr

/-- One atomic step of one caller of `get_access_token` (same code as
`get_access_token`, split at the blocking network call). -/
def thread_step (cfg : ZohoAuthConfig) (now : Int) (resp : TokenResponse)
    (sh : SharedAuth) (t : RefreshThread) : SharedAuth × RefreshThread :=
  match t.pc with
  | .check =>
    if optTruthy sh.st.current_access_token ∧
        now < sh.st.access_token_expiry_time then
      (sh, ⟨.done, sh.st.current_access_token⟩)
    else
      match sh.st.refresh_token_file with
      | none => (sh, ⟨.done, none⟩)
      | some contents =>
        if (pyStrip contents).isEmpty then (sh, ⟨.done, none⟩)
        else if cfg.client_id.isEmpty || cfg.client_secret.isEmpty
            || cfg.accounts_url.isEmpty then (sh, ⟨.done, none⟩)
        else (sh, ⟨.net, none⟩)
  | .net => (⟨sh.st, sh.net_calls + 1⟩, ⟨.commit, t.result⟩)
  | .commit =>
    match resp with
    | .ok access_token expires_in =>
      (⟨{ sh.st with
          current_access_token := some access_token
          access_token_expiry_time := now + expires_in - 60 }, sh.net_calls⟩,
        ⟨.done, some access_token⟩)
    | .err e =>
      if e = str "invalid_code" ∨ e = str "invalid_grant" then
        (⟨{ sh.st with refresh_token_file := none }, sh.net_calls⟩, ⟨.done, none⟩)
      else
        (sh, ⟨.done, none⟩)
    | .httpError => (sh, ⟨.done, none⟩)
  | .done => (sh, t)

/-- Run two concurrent callers of `get_access_token` under a schedule:
`false` steps caller 0 (receiving `resp0` from its POST), `true` steps
caller 1 (receiving `resp1`). -/
def run_two (cfg : ZohoAuthConfig) (now : Int) (resp0 resp1 : TokenResponse) :
    SharedAuth → RefreshThread → RefreshThread → List Bool →
      SharedAuth × RefreshThread × RefreshThread
  | sh, t0, t1, [] => (sh, t0, t1)
  | sh, t0, t1, true :: rest =>
    let s := thread_step cfg now resp1 sh t1
    run_two cfg now resp0 resp1 s.1 t0 s.2 rest
  | sh, t0, t1, false :: rest =>
    let s := thread_step cfg now resp0 sh t0
    run_two cfg now resp0 resp1 s.1 s.2 t1 rest

/-!
## ZohoCRM adapter (src/integrations/zoho_crm.py)
-/

/-- The JSON record posted to `{api_url}/crm/v2/Leads` for one lead. -/
structure ZohoLeadPayload where
  First_Name : Str
  Last_Name : Str
  Email : Str
  Phone : Str
deriving DecidableEq, Repr

/-- The `Last_Name` value `ZohoCRM.create_lead` puts in its payload:
`lead_data.get('last_name', '')`, falling back to `first_name` and then to
`"Unknown"` because Zoho's `Last_Name` is mandatory. -/
def zoho_last_name (lead_data : LeadData) : Str :=
  let last_name := lead_data.last_name.getD []
  if last_name.isEmpty && !lead_data.first_name.isEmpty then
    lead_data.first_name
  else if last_name.isEmpty && lead_data.first_name.isEmpty then
    str "Unknown"
  else last_name

/-- The payload `ZohoCRM.create_lead` builds from a normalized lead record. -/
def zoho_create_payload (lead_data : LeadData) : ZohoLeadPayload :=
  { First_Name := lead_data.first_name
    Last_Name := zoho_last_name lead_data
    Email := lead_data.email
    Phone := lead_data.phone }

/-- Outcome of the POST creating a lead: a success body carrying the new
record id, a non-success body, or a transport/JSON failure. -/
inductive ZohoCreateResponse where
  | success (id : Str)
  | failure
  | httpError
deriving DecidableEq, Repr

/-- `ZohoCRM.create_lead`: without an access token nothing is sent and `None`
is returned; with one, the payload is POSTed and the created record's id
returned on success.  The second component lists the payloads sent. -/
def zoho_create_lead (access_token : Option Str) (lead_data : LeadData)
    (resp : ZohoCreateResponse) : Option Str × List ZohoLeadPayload :=
  match access_token with
  | none => (none, [])
  | some _ =>
    let payload := zoho_create_payload lead_data
    match resp with
    | .success id => (some id, [payload])
    | .failure => (none, [payload])
    | .httpError => (none, [payload])

/-!
## CRMRouter (src/integrations/crm_router.py)
-/

/-- The tenant's `zoho` credential block (a dict accessed with `.get`). -/
structure ZohoBlock where
  client_id : Option Str
  client_secret : Option Str
  accounts_url : Option Str
  api_url : Option Str
deriving DecidableEq, Repr

/-- The tenant's `hubspot` credential block. -/
structure HubSpotBlock where
  api_key : Option Str
deriving DecidableEq, Repr

/-- One tenant's configuration dict, as read by `CRMRouter` and the tenant
loader (`.get('crm')`, `.get('tenant_id')`, `.get('zoho', {})`,
`.get('hubspot', {})`). -/
structure TenantConfig where
  crm : Option Str
  tenant_id : Option Str
  zoho : Option ZohoBlock
  hubspot : Option HubSpotBlock
deriving DecidableEq, Repr

/-- A constructed `ZohoCRM` instance (auth manager credentials + api url). -/
structure ZohoCRMInst where
  auth_cfg : ZohoAuthConfig
  api_url : Str
deriving DecidableEq, Repr

/-- A constructed `HubSpotCRM` instance. -/
structure HubSpotInst where
  api_key : Str
deriving DecidableEq, Repr

/-- The one adapter a router may have bound. -/
inductive Adapter where
  | zoho (inst : ZohoCRMInst)
  | hubspot (inst : HubSpotInst)
deriving DecidableEq, Repr

/-- `ZohoCRM.__init__`: raises `ValueError` when `api_url` is falsy. -/
def mkZohoCRM (cfg : ZohoAuthConfig) (api_url : Str) : Except Str ZohoCRMInst :=
  if api_url.isEmpty then
    .error (str "ZOHO_API_URL is not set for ZohoCRM initialization.")
  else .ok ⟨cfg, api_url⟩

/-- A `CRMRouter` after construction: the active CRM name and the bound
adapter (`crm_instances` holds at most the active adapter, keyed by that
name). -/
structure CRMRouterSt where
  active_crm_name : Option Str
  adapter : Option Adapter
deriving DecidableEq, Repr

/-- `CRMRouter.__init__` / `_initialize_active_crm`: falsy or `"none"` crm →
no adapter; `"zoho"` with a complete credential block → a `ZohoCRM` (whose
constructor may raise, propagated as `.error`); `"hubspot"` with an api key →
a `HubSpotCRM`; anything else (incomplete credentials, unsupported name) is
logged and leaves no adapter bound. -/
def crmRouter_init (cfg : TenantConfig) : Except Str CRMRouterSt :=
  let name := cfg.crm
  if !optTruthy name || name = some (str "none") then .ok ⟨name, none⟩
  else if name = some (str "zoho") then
    let z := cfg.zoho.getD ⟨none, none, none, none⟩
    if !(optTruthy z.client_id && optTruthy z.client_secret &&
        optTruthy z.accounts_url && optTruthy z.api_url) then
      .ok ⟨name, none⟩
    else
      match mkZohoCRM ⟨z.client_id.getD [], z.client_secret.getD [],
          z.accounts_url.getD []⟩ (z.api_url.getD []) with
      | .error e => .error e
      | .ok inst => .ok ⟨name, some (.zoho inst)⟩
  else if name = some (str "hubspot") then
    let h := cfg.hubspot.getD ⟨none⟩
    if !optTruthy h.api_key then .ok ⟨name, none⟩
    else .ok ⟨name, some (.hubspot ⟨h.api_key.getD []⟩)⟩
  else .ok ⟨name, none⟩

/-- `CRMRouter.get_active_crm_instance`: `None` when the active name is
`"none"` or no instance is bound under it. -/
def get_active_crm_instance (r : CRMRouterSt) : Option Adapter :=
  if r.active_crm_name = some (str "none") then none
  else r.adapter

/-- The record a CRM search returns, restricted to the fields the bot handler
reads (`id`, `Full_Name`, `firstname`, `First_Name`). -/
structure LeadSearchRec where
  id : Option Str
  full_name : Option Str
  firstname : Option Str
  first_name : Option Str
deriving DecidableEq, Repr

/-- The created-lead details dict, restricted to the `id` field the handler
reads. -/
structure CreatedLead where
  id : Option Str
deriving DecidableEq, Repr

/-- `CRMRouter.search_lead`: delegate to the bound adapter (its behaviour,
including how many network calls it makes, is the parameter `impl`), or
return `None` making no network call when there is none. -/
def router_search (r : CRMRouterSt)
    (impl : Adapter → Str → Option LeadSearchRec × Nat)
    (phone_number : Str) : Option LeadSearchRec × Nat :=
  match get_active_crm_instance r with
  | none => (none, 0)
  | some a => impl a phone_number

/-- `CRMRouter.create_lead`: delegate to the bound adapter or return `None`
making no network call when there is none. -/
def router_create (r : CRMRouterSt)
    (impl : Adapter → LeadData → Option CreatedLead × Nat)
    (normalized_lead_data : LeadData) : Option CreatedLead × Nat :=
  match get_active_crm_instance r with
  | none => (none, 0)
  | some a => impl a normalized_lead_data

/-!
## Tenant loader (src/utils/tenant_loader.py)
-/

/-- The parsed `tenants.json` document (`config.get('tenants', [])`). -/
structure TenantsJson where
  tenants : List TenantConfig
deriving DecidableEq, Repr

/-- What `load_all_tenants_config` produces: the returned config dict, the
module-level tenant cache after the call, and whether an error was logged. -/
structure LoadResult where
  config : TenantsJson
  cache : List (Str × TenantConfig)
  error_reported : Bool
deriving DecidableEq, Repr

/-- `load_all_tenants_config`: a missing file or a source that fails to parse
as JSON is caught and yields `{"tenants": []}` with an error logged (the
cache is left as it was); a parsed document rebuilds the cache from the
entries having a truthy `tenant_id`. -/
def load_all_tenants_config (prev_cache : List (Str × TenantConfig))
    (file : Option Str) (parseJson : Str → Option TenantsJson) : LoadResult :=
  match file with
  | none => ⟨⟨[]⟩, prev_cache, true⟩
  | some contents =>
    match parseJson contents with
    | none => ⟨⟨[]⟩, prev_cache, true⟩
    | some config =>
      let cache := config.tenants.filterMap fun t =>
        match t.tenant_id with
        | some id => if id.isEmpty then none else some (id, t)
        | none => none
      ⟨config, cache, false⟩

/-!
## BotHandler (src/console_chatbot/bot_handler.py)

The handler's collaborators (CRM router results, the web-RAG ingestion, the
LLM responders) are oracles in `BotEnv`; `router_available` is whether
`CRMRouter` construction succeeded in `__init__`.  The chat history, which
only feeds the LLM collaborator, is not tracked.
-/

inductive Phase where
  | initial
  | awaitingName
  | awaitingEmail
  | leadCollected
  | ragAwaitingUrl
deriving DecidableEq, Repr

/-- `self.rag_state`. -/
structure RagState where
  enabled : Bool
  url : Option Str
  vector_store : Option Nat
  awaiting_url : Bool
deriving DecidableEq, Repr

/-- `self.crm_state`. -/
structure CrmConvState where
  phase : Phase
  name : Option Str
  email : Option Str
  phone : Str
  lead_id : Option Str
  lead_found_name : Option Str
deriving DecidableEq, Repr

/-- The per-user mutable state of a `BotHandler`. -/
structure BotState where
  user_id : Str
  current_llm : Option Str
  rag : RagState
  crm : CrmConvState
deriving DecidableEq, Repr

/-- `BotHandler.__init__`: fresh RAG state, `crm_state` in `initial` with the
user id as phone. -/
def initBotState (user_id : Str) : BotState :=
  { user_id := user_id
    current_llm := none
    rag := ⟨false, none, none, false⟩
    crm := ⟨.initial, none, none, user_id, none, none⟩ }

/-- External collaborators of the handler. -/
structure BotEnv where
  router_available : Bool
  search_lead : Str → Option LeadSearchRec
  create_lead : LeadData → Option CreatedLead
  create_vector_store : Str → Except Str Nat
  retrieve : Nat → Str → Option Str
  llm_chat : Str → Option Str → Str
  llm_greet : Str → Str

/-- Result of one `handle_message` call: the state afterwards, the reply, and
the arguments of the `CRMRouter.create_lead` / `search_lead` calls made. -/
structure HandleResult where
  state : BotState
  reply : Str
  create_calls : List LeadData
  search_calls : List Str
deriving Repr

/-- First truthy value of a Python `or`-chain of optional strings. -/
def firstTruthy (dflt : Str) : List (Option Str) → Str
  | [] => dflt
  | none :: rest => firstTruthy dflt rest
  | some s :: rest => if s.isEmpty then firstTruthy dflt rest else s

/-- `BotHandler._get_llm_response` (the LLM collaborator's answer is the
oracle `llm_chat`). -/
def get_llm_response (env : BotEnv) (current_llm : Option Str)
    (user_query : Str) (context : Option Str) : Str :=
  match current_llm with
  | none => str "Please choose an LLM first by typing /set_llm gemini or /set_llm ollama."
  | some _ => env.llm_chat user_query context

/-- `BotHandler._personalize_greeting`. -/
def personalize_greeting (env : BotEnv) (current_llm : Option Str)
    (lead_name : Str) : Str :=
  match current_llm with
  | none => str "Welcome back! It's great to hear from you."
  | some _ => env.llm_greet lead_name

/-- `BotHandler.handle_message`: commands first (`/reset`, `/set_llm`,
`/enable_rag`, `/disable_rag`), then the RAG-URL branch, then the lead
capture states, then normal chat. -/
def handle_message (env : BotEnv) (st : BotState) (user_message : Str) :
    HandleResult :=
  let lower := pyLower user_message
  if lower = str "/reset" then
    { state := { st with
        current_llm := none
        rag := ⟨false, none, none, false⟩
        crm := ⟨.initial, none, none, st.user_id, none, none⟩ }
      reply := str "Chat reset. Please use /set_llm to choose an LLM."
      create_calls := [], search_calls := [] }
  else if (str "/set_llm ").isPrefixOf lower then
    let parts := pyWords lower
    if parts.length = 2 ∧ (parts.getD 1 [] = str "gemini" ∨
        parts.getD 1 [] = str "ollama") then
      let chosen := parts.getD 1 []
      let st1 := { st with current_llm := some chosen }
      let lead_record := if env.router_available
        then env.search_lead st.crm.phone else none
      let searches := if env.router_available then [st.crm.phone] else []
      match lead_record with
      | some rec =>
        let found := firstTruthy (str "valued customer")
          [rec.full_name, rec.firstname, rec.first_name]
        { state := { st1 with crm := { st1.crm with
            phase := .leadCollected
            lead_id := rec.id
            lead_found_name := some found } }
          reply := str "You've selected " ++ pyUpper chosen ++ str ". " ++
            personalize_greeting env st1.current_llm found
          create_calls := [], search_calls := searches }
      | none =>
        { state := { st1 with crm := { st1.crm with phase := .awaitingName } }
          reply := str "You've selected " ++ pyUpper chosen ++
            str ". Hello! Before we proceed, could you please tell me your full name?"
          create_calls := [], search_calls := searches }
    else
      { state := st
        reply := str "Invalid LLM choice. Please use /set_llm gemini or /set_llm ollama."
        create_calls := [], search_calls := [] }
  else if lower = str "/enable_rag" then
    if st.rag.enabled then
      { state := st
        reply := str "Web RAG is already enabled using " ++ st.rag.url.getD [] ++
          str ". Use /disable_rag to change it."
        create_calls := [], search_calls := [] }
    else
      { state := { st with
          rag := { st.rag with awaiting_url := true }
          crm := { st.crm with phase := .ragAwaitingUrl } }
        reply := str "Please reply to this message with the URL you want to use for Web RAG. For example: https://www.example.com"
        create_calls := [], search_calls := [] }
  else if lower = str "/disable_rag" then
    if st.rag.enabled then
      { state := { st with
          rag := ⟨false, none, none, false⟩
          crm := { st.crm with phase :=
            if st.crm.phase = .ragAwaitingUrl then
              (if optTruthy st.crm.lead_id then .leadCollected else .initial)
            else st.crm.phase } }
        reply := str "Web RAG has been disabled for this session."
        create_calls := [], search_calls := [] }
    else
      { state := st
        reply := str "Web RAG is not currently enabled."
        create_calls := [], search_calls := [] }
  else if st.rag.awaiting_url ∧ st.crm.phase = .ragAwaitingUrl then
    let url := pyStrip user_message
    let newPhase := if optTruthy st.crm.lead_id then Phase.leadCollected
      else Phase.initial
    let response_message := str "Processing content from " ++ url ++
      str " for RAG. This might take a moment..."
    match env.create_vector_store url with
    | .ok vs =>
      { state := { st with
          rag := ⟨true, some url, some vs, false⟩
          crm := { st.crm with phase := newPhase } }
        reply := response_message ++ str "\nKnowledge base from " ++ url ++
          str " loaded successfully! You can now ask questions related to it."
        create_calls := [], search_calls := [] }
    | .error e =>
      { state := { st with
          rag := ⟨false, none, none, false⟩
          crm := { st.crm with phase := newPhase } }
        reply := response_message ++ str "\nFailed to load knowledge base from " ++
          url ++ str ": " ++ e ++ str ". Web RAG remains disabled."
        create_calls := [], search_calls := [] }
  else if st.crm.phase = .awaitingName then
    let full_name := pyStrip user_message
    { state := { st with crm := { st.crm with
        name := some full_name
        phase := .awaitingEmail } }
      reply := str "Thanks, " ++ full_name ++
        str "! Now, please provide your email address."
      create_calls := [], search_calls := [] }
  else if st.crm.phase = .awaitingEmail then
    let email := pyStrip user_message
    let nd := normalize_lead_data (st.crm.name.getD []) email st.crm.phone
    let created := if env.router_available then env.create_lead nd else none
    let creates := if env.router_available then [nd] else []
    match created with
    | some details =>
      let display_name := nd.first_name ++
        (match nd.last_name with
          | some l => ' ' :: l
          | none => [])
      let prompt := str "A new lead has been created for " ++ display_name ++
        str " with email " ++ nd.email ++ str " and phone " ++ nd.phone ++
        str " in our CRM. Respond with a polite confirmation message to the user, thanking them and asking how you can help them now. Keep it concise and friendly."
      { state := { st with crm := { st.crm with
          email := some email
          lead_id := details.id
          phase := .leadCollected } }
        reply := get_llm_response env st.current_llm prompt none
        create_calls := creates, search_calls := [] }
    | none =>
      { state := { st with crm := { st.crm with
          email := some email
          phase := .initial } }
        reply := str "I apologize, but there was an issue creating your lead in our system. Please try again or contact support."
        create_calls := creates, search_calls := [] }
  else
    let context := match st.rag.vector_store with
      | some vs => if st.rag.enabled then env.retrieve vs user_message else none
      | none => none
    { state := st
      reply := get_llm_response env st.current_llm user_message context
      create_calls := [], search_calls := [] }

/-!
### Concrete fixtures used by witnesses and counterexamples
-/

/-- A complete credential set for a tenant's auth manager. -/
def authCfg0 : ZohoAuthConfig :=
  ⟨str "id0", str "secret0", str "https://accounts.zoho.test"⟩

/-- An auth state whose cached token is stale at time 200 and whose
refresh-token file exists. -/
def staleAuthSt : AuthState := ⟨some (str "OLD"), 100, some (str "rt0")⟩

/-- The stale state as seen by concurrent callers, no POSTs issued yet. -/
def staleShared : SharedAuth := ⟨staleAuthSt, 0⟩

/-- A bot environment whose CRM finds no lead, creates leads with id `L1`,
and whose RAG ingestion fails. -/
def botEnvNoLead : BotEnv where
  router_available := true
  search_lead := fun _ => none
  create_lead := fun _ => some ⟨some (str "L1")⟩
  create_vector_store := fun _ => .error (str "no net")
  retrieve := fun _ _ => none
  llm_chat := fun _ _ => str "ok"
  llm_greet := fun _ => str "hi"

/-!
### Lemmas about the embedded string operations
-/

theorem addChar_ne_nil (c : Char) (ws : List Str) : addChar c ws ≠ [] := by
  unfold addChar
  split
  · exact List.cons_ne_nil _ _
  · split <;> exact List.cons_ne_nil _ _

theorem foldr_addChar_ne_nil (a : Str) (h : Str) (t : List Str) :
    a.foldr addChar (h :: t) ≠ [] := by
  cases a with
  | nil => exact List.cons_ne_nil _ _
  | cons c a' => exact addChar_ne_nil _ _

/-- `addChar` only touches the head of the accumulator, so a nonempty seed's
tail rides along untouched. -/
theorem foldr_addChar_seed (a : Str) (h : Str) (t : List Str) :
    a.foldr addChar (h :: t) = a.foldr addChar [h] ++ t := by
  induction a with
  | nil => rfl
  | cons c a' ih =>
    simp only [List.foldr_cons, ih]
    rcases he : a'.foldr addChar [h] with _ | ⟨y, ys⟩
    · exact absurd he (foldr_addChar_ne_nil a' h [])
    · unfold addChar
      split
      · rfl
      · rfl

/-- Folding onto the seed `[[]]` produces the same words (up to trailing empty
words that the later filter removes) as folding onto `[]`. -/
theorem foldr_addChar_empty_seed (a : Str) :
    a.foldr addChar [[]] = a.foldr addChar [] ∨
      a.foldr addChar [[]] = a.foldr addChar [] ++ [[]] := by
  induction a with
  | nil => exact Or.inr rfl
  | cons c a' ih =>
    rcases ih with ih | ih
    · exact Or.inl (by rw [List.foldr_cons, List.foldr_cons, ih])
    · simp only [List.foldr_cons, ih]
      by_cases hc : isPySpace c
      · right
        unfold addChar
        simp [hc]
      · rcases he : a'.foldr addChar [] with _ | ⟨y, ys⟩
        · left
          unfold addChar
          simp [hc]
        · right
          unfold addChar
          simp [hc]

theorem filter_foldr_addChar_empty_seed (a : Str) :
    (a.foldr addChar [[]]).filter (· ≠ []) = pyWords a := by
  rcases foldr_addChar_empty_seed a with h | h <;>
    simp [pyWords, h, List.filter_append]

/-- Splitting distributes over a whitespace character. -/
theorem pyWords_append_space (a b : Str) (c : Char) (hc : isPySpace c) :
    pyWords (a ++ c :: b) = pyWords a ++ pyWords b := by
  have h1 : (a ++ c :: b).foldr addChar [] =
      a.foldr addChar [[]] ++ b.foldr addChar [] := by
    rw [List.foldr_append, List.foldr_cons]
    have h2 : addChar c (b.foldr addChar []) = [] :: b.foldr addChar [] := by
      unfold addChar
      rw [if_pos hc]
    rw [h2, foldr_addChar_seed]
  have h3 := filter_foldr_addChar_empty_seed a
  simp only [pyWords] at h3 ⊢
  rw [h1, List.filter_append, h3]

/-- Every word produced by the splitter is free of whitespace characters. -/
theorem foldr_addChar_spaceless (a : Str) :
    ∀ w ∈ a.foldr addChar [], ∀ c ∈ w, isPySpace c = false := by
  induction a with
  | nil => intro w hw; cases hw
  | cons c a' ih =>
    intro w hw
    rw [List.foldr_cons] at hw
    by_cases hc : isPySpace c
    · have he : addChar c (a'.foldr addChar []) = [] :: a'.foldr addChar [] := by
        unfold addChar
        rw [if_pos hc]
      rw [he] at hw
      rcases List.mem_cons.mp hw with h | h
      · subst h; intro d hd; cases hd
      · exact ih w h
    · rcases he : a'.foldr addChar [] with _ | ⟨y, ys⟩
      · rw [he] at hw
        have he2 : addChar c [] = [[c]] := by
          unfold addChar
          rw [if_neg hc]
        rw [he2] at hw
        rcases List.mem_cons.mp hw with h | h
        · subst h
          intro d hd
          rcases List.mem_cons.mp hd with hd | hd
          · subst hd; exact Bool.eq_false_iff.mpr hc
          · cases hd
        · cases h
      · rw [he] at hw
        have he2 : addChar c (y :: ys) = (c :: y) :: ys := by
          unfold addChar
          rw [if_neg hc]
        rw [he2] at hw
        rcases List.mem_cons.mp hw with h | h
        · subst h
          intro d hd
          rcases List.mem_cons.mp hd with hd | hd
          · subst hd; exact Bool.eq_false_iff.mpr hc
          · exact ih y (he ▸ List.mem_cons_self y ys) d hd
        · exact ih w (he ▸ List.mem_cons_of_mem y h)

theorem pyWords_sound (l : Str) :
    ∀ w ∈ pyWords l, w ≠ [] ∧ ∀ c ∈ w, isPySpace c = false := by
  intro w hw
  rw [pyWords, List.mem_filter] at hw
  refine ⟨by simpa using hw.2, foldr_addChar_spaceless l w hw.1⟩

/-- A single nonempty whitespace-free word splits to itself. -/
theorem pyWords_single (w : Str) (hne : w ≠ [])
    (hsp : ∀ c ∈ w, isPySpace c = false) : pyWords w = [w] := by
  have key : w.foldr addChar [] = [w] := by
    induction w with
    | nil => exact absurd rfl hne
    | cons c w' ih =>
      have hc : isPySpace c = false := hsp c (List.mem_cons_self _ _)
      cases w' with
      | nil =>
        unfold addChar
        simp [hc]
      | cons d w'' =>
        have ih' := ih (List.cons_ne_nil _ _)
          (fun e he => hsp e (List.mem_cons_of_mem _ he))
        simp only [List.foldr_cons] at ih' ⊢
        rw [ih']
        unfold addChar
        simp [hc]
  rw [pyWords, key]
  simp [hne]

theorem pyWords_nil : pyWords [] = [] := rfl

/-- Splitting ignores a trailing whitespace character. -/
theorem pyWords_concat_space (l : Str) (c : Char) (hc : isPySpace c) :
    pyWords (l ++ [c]) = pyWords l := by
  have h := pyWords_append_space l [] c hc
  simpa [pyWords_nil] using h

/-- Splitting ignores a leading whitespace character. -/
theorem pyWords_cons_space (l : Str) (c : Char) (hc : isPySpace c) :
    pyWords (c :: l) = pyWords l := by
  have h := pyWords_append_space [] l c hc
  simpa [pyWords_nil] using h

/-- Splitting ignores leading whitespace. -/
theorem pyWords_dropWhile (l : Str) :
    pyWords (l.dropWhile isPySpace) = pyWords l := by
  induction l with
  | nil => rfl
  | cons c l ih =>
    by_cases hc : isPySpace c
    · rw [List.dropWhile_cons, if_pos hc, ih, pyWords_cons_space l c hc]
    · rw [List.dropWhile_cons, if_neg hc]

/-- Splitting ignores trailing whitespace. -/
theorem pyWords_rstrip (l : Str) :
    pyWords (l.reverse.dropWhile isPySpace).reverse = pyWords l := by
  induction l using List.reverseRecOn with
  | nil => rfl
  | append_singleton ys c ih =>
    by_cases hc : isPySpace c
    · rw [List.reverse_append]
      simp only [List.reverse_singleton, List.singleton_append, List.dropWhile_cons,
        if_pos hc]
      rw [ih, pyWords_concat_space ys c hc]
    · rw [List.reverse_append]
      simp only [List.reverse_singleton, List.singleton_append, List.dropWhile_cons,
        if_neg hc]
      simp

/-- Splitting after stripping equals splitting directly. -/
theorem pyWords_pyStrip (l : Str) : pyWords (pyStrip l) = pyWords l := by
  rw [pyStrip, pyWords_rstrip, pyWords_dropWhile]

theorem head?_dropWhile_false (l : Str) (c : Char)
    (h : (l.dropWhile isPySpace).head? = some c) : isPySpace c = false := by
  induction l with
  | nil => cases h
  | cons a l ih =>
    by_cases ha : isPySpace a
    · rw [List.dropWhile_cons, if_pos ha] at h
      exact ih h
    · rw [List.dropWhile_cons, if_neg ha, List.head?_cons] at h
      cases h
      exact Bool.eq_false_iff.mpr ha

theorem dropWhile_eq_self_of_head (l : Str)
    (h : ∀ c, l.head? = some c → isPySpace c = false) :
    l.dropWhile isPySpace = l := by
  cases l with
  | nil => rfl
  | cons a l =>
    rw [List.dropWhile_cons, if_neg]
    simp [h a rfl]

theorem getLast?_dropWhile_ne_nil (l : Str)
    (h : l.dropWhile isPySpace ≠ []) :
    (l.dropWhile isPySpace).getLast? = l.getLast? := by
  induction l with
  | nil => exact absurd rfl h
  | cons a l ih =>
    by_cases ha : isPySpace a
    · rw [List.dropWhile_cons, if_pos ha] at h ⊢
      rw [ih h]
      have hl : l ≠ [] := by
        intro hnil
        rw [hnil] at h
        exact h rfl
      cases l with
      | nil => exact absurd rfl hl
      | cons b l' => rw [List.getLast?_cons_cons]
    · rw [List.dropWhile_cons, if_neg ha]

/-- The head of a stripped string is not whitespace. -/
theorem head?_pyStrip_false (l : Str) (c : Char)
    (h : (pyStrip l).head? = some c) : isPySpace c = false := by
  rw [pyStrip, List.head?_reverse] at h
  by_cases hB : (l.dropWhile isPySpace).reverse.dropWhile isPySpace = []
  · rw [hB] at h
    cases h
  · rw [getLast?_dropWhile_ne_nil _ hB, List.getLast?_reverse] at h
    exact head?_dropWhile_false l c h

/-- The last character of a stripped string is not whitespace. -/
theorem getLast?_pyStrip_false (l : Str) (c : Char)
    (h : (pyStrip l).getLast? = some c) : isPySpace c = false := by
  rw [pyStrip, List.getLast?_reverse] at h
  exact head?_dropWhile_false _ c h

/-- Stripping is idempotent. -/
theorem pyStrip_idem (l : Str) : pyStrip (pyStrip l) = pyStrip l := by
  have h1 : (pyStrip l).dropWhile isPySpace = pyStrip l :=
    dropWhile_eq_self_of_head _ (head?_pyStrip_false l)
  have h2 : (pyStrip l).reverse.dropWhile isPySpace = (pyStrip l).reverse := by
    apply dropWhile_eq_self_of_head
    intro c hc
    rw [List.head?_reverse] at hc
    exact getLast?_pyStrip_false l c hc
  show (((pyStrip l).dropWhile isPySpace).reverse.dropWhile isPySpace).reverse = pyStrip l
  rw [h1, h2, List.reverse_reverse]

/-- Stripping only removes characters. -/
theorem mem_pyStrip (l : Str) (c : Char) (h : c ∈ pyStrip l) : c ∈ l := by
  rw [pyStrip, List.mem_reverse] at h
  have h1 := (List.dropWhile_suffix (l := (l.dropWhile isPySpace).reverse)
    isPySpace).sublist.subset h
  rw [List.mem_reverse] at h1
  exact (List.dropWhile_suffix isPySpace).sublist.subset h1

theorem asciiLower_toNat_of_upper (c : Char) (h : 65 ≤ c.toNat ∧ c.toNat ≤ 90) :
    (asciiLower c).toNat = c.toNat + 32 := by
  unfold asciiLower
  rw [dif_pos h]
  rfl

theorem asciiLower_of_not_upper (c : Char) (h : ¬(65 ≤ c.toNat ∧ c.toNat ≤ 90)) :
    asciiLower c = c := by
  unfold asciiLower
  rw [dif_neg h]

/-- Lower-casing a character twice is lower-casing it once. -/
theorem asciiLower_idem (c : Char) : asciiLower (asciiLower c) = asciiLower c := by
  by_cases h : 65 ≤ c.toNat ∧ c.toNat ≤ 90
  · apply asciiLower_of_not_upper
    rw [asciiLower_toNat_of_upper c h]
    omega
  · rw [asciiLower_of_not_upper c h, asciiLower_of_not_upper c h]

theorem map_eq_self_of_fixed {f : Char → Char} (l : Str)
    (h : ∀ c ∈ l, f c = c) : l.map f = l := by
  induction l with
  | nil => rfl
  | cons c l ih =>
    rw [List.map_cons, h c (List.mem_cons_self _ _),
      ih fun d hd => h d (List.mem_cons_of_mem _ hd)]

/-- Every character of a lower-cased string is a fixed point of
lower-casing. -/
theorem mem_pyLower_fixed (l : Str) (c : Char) (h : c ∈ pyLower l) :
    asciiLower c = c := by
  rw [pyLower, List.mem_map] at h
  obtain ⟨d, _, hd⟩ := h
  rw [← hd]
  exact asciiLower_idem d

/-- `email.lower().strip()` is idempotent. -/
theorem email_norm_idem (e : Str) :
    pyStrip (pyLower (pyStrip (pyLower e))) = pyStrip (pyLower e) := by
  have h1 : pyLower (pyStrip (pyLower e)) = pyStrip (pyLower e) :=
    map_eq_self_of_fixed _ fun c hc =>
      mem_pyLower_fixed e c (mem_pyStrip _ c hc)
  rw [h1, pyStrip_idem]

/-- `re.sub(r'\D', '', ·)` is idempotent. -/
theorem keepDigits_idem (p : Str) : keepDigits (keepDigits p) = keepDigits p := by
  rw [keepDigits, keepDigits, List.filter_filter]
  simp

theorem intercalate_single (x : Str) : List.intercalate [' '] [x] = x := by
  simp [List.intercalate]

theorem intercalate_cons_cons (x y : Str) (xs : List Str) :
    List.intercalate [' '] (x :: y :: xs) =
      x ++ ' ' :: List.intercalate [' '] (y :: xs) := by
  simp [List.intercalate, List.intersperse]

/-- Joining then appending one more word. -/
theorem intercalate_concat (xs : List Str) (y : Str) (h : xs ≠ []) :
    List.intercalate [' '] (xs ++ [y]) =
      List.intercalate [' '] xs ++ ' ' :: y := by
  induction xs with
  | nil => exact absurd rfl h
  | cons x xs ih =>
    cases xs with
    | nil =>
      rw [List.singleton_append, intercalate_cons_cons, intercalate_single,
        intercalate_single]
    | cons x2 xs2 =>
      calc List.intercalate [' '] ((x :: x2 :: xs2) ++ [y])
          = x ++ ' ' :: List.intercalate [' '] (x2 :: (xs2 ++ [y])) := by
            rw [List.cons_append, List.cons_append, intercalate_cons_cons]
        _ = x ++ ' ' :: List.intercalate [' '] ((x2 :: xs2) ++ [y]) := by
            rw [List.cons_append]
        _ = x ++ ' ' :: (List.intercalate [' '] (x2 :: xs2) ++ ' ' :: y) := by
            rw [ih (List.cons_ne_nil _ _)]
        _ = (x ++ ' ' :: List.intercalate [' '] (x2 :: xs2)) ++ ' ' :: y := by
            simp
        _ = List.intercalate [' '] (x :: x2 :: xs2) ++ ' ' :: y := by
            rw [intercalate_cons_cons]

/-- Splitting the space-joined list of nonempty whitespace-free words gives
back the list. -/
theorem pyWords_intercalate (ws : List Str)
    (h : ∀ w ∈ ws, w ≠ [] ∧ ∀ c ∈ w, isPySpace c = false) :
    pyWords (List.intercalate [' '] ws) = ws := by
  induction ws with
  | nil => rfl
  | cons w ws ih =>
    cases ws with
    | nil =>
      rw [intercalate_single]
      exact pyWords_single w (h w (List.mem_cons_self _ _)).1
        (h w (List.mem_cons_self _ _)).2
    | cons w2 ws2 =>
      rw [intercalate_cons_cons,
        pyWords_append_space w (List.intercalate [' '] (w2 :: ws2)) ' ' rfl,
        pyWords_single w (h w (List.mem_cons_self _ _)).1
          (h w (List.mem_cons_self _ _)).2,
        ih fun v hv => h v (List.mem_cons_of_mem _ hv)]
      rfl

/-!
### Evaluating `parse_full_name` by the shape of the token list
-/

theorem parse_full_name_of_nil (s : Str) (h : pyWords (pyStrip s) = []) :
    parse_full_name s = ([], none) := by
  simp [parse_full_name, h]

theorem parse_full_name_of_one (s : Str) (t : Str)
    (h : pyWords (pyStrip s) = [t]) : parse_full_name s = (t, none) := by
  simp [parse_full_name, h]

theorem parse_full_name_of_many (s : Str) (ts : List Str) (t : Str)
    (h : pyWords (pyStrip s) = ts ++ [t]) (hne : ts ≠ []) :
    parse_full_name s = (List.intercalate [' '] ts, some t) := by
  have hts : 1 ≤ ts.length := by
    cases ts with
    | nil => exact absurd rfl hne
    | cons _ _ => simp
  have h0 : ¬((ts ++ [t]).length = 0) := by simp
  have h1 : ¬((ts ++ [t]).length = 1) := by
    simp only [List.length_append, List.length_singleton]
    omega
  simp only [parse_full_name, h, if_neg h0, if_neg h1, List.dropLast_concat,
    List.getLast?_concat]

/-- The words of the name determine the parse; re-forming the name from the
parsed pair and parsing again gives the same pair. -/
theorem parse_full_name_rebuild (name : Str) (r : LeadData)
    (h : parse_full_name name = (r.first_name, r.last_name)) :
    parse_full_name (rebuild_name r) = (r.first_name, r.last_name) := by
  unfold rebuild_name
  rcases hp : pyWords (pyStrip name) with _ | ⟨w, ws⟩
  · rw [parse_full_name_of_nil name hp] at h
    have hf : r.first_name = [] := (congrArg Prod.fst h).symm
    have hl : r.last_name = none := (congrArg Prod.snd h).symm
    rw [hl, hf]
    exact parse_full_name_of_nil [] rfl
  · rcases hws : ws with _ | ⟨w2, ws2⟩
    · subst hws
      rw [parse_full_name_of_one name w hp] at h
      have hf : r.first_name = w := (congrArg Prod.fst h).symm
      have hl : r.last_name = none := (congrArg Prod.snd h).symm
      rw [hl, hf]
      have hmem : w ∈ pyWords (pyStrip name) := by
        rw [hp]
        exact List.mem_cons_self _ _
      have hsound := pyWords_sound (pyStrip name) w hmem
      apply parse_full_name_of_one
      rw [pyWords_pyStrip, pyWords_single w hsound.1 hsound.2]
    · subst hws
      have hPne : (w :: w2 :: ws2 : List Str) ≠ [] := List.cons_ne_nil _ _
      have hsplit : (w :: w2 :: ws2).dropLast ++ [(w :: w2 :: ws2).getLast hPne] =
          w :: w2 :: ws2 := List.dropLast_append_getLast hPne
      have hdne : (w :: w2 :: ws2 : List Str).dropLast ≠ [] := by simp
      have hparse := parse_full_name_of_many name (w :: w2 :: ws2).dropLast
        ((w :: w2 :: ws2).getLast hPne) (by rw [hp, hsplit]) hdne
      rw [hparse] at h
      have hf : r.first_name = List.intercalate [' '] (w :: w2 :: ws2).dropLast :=
        (congrArg Prod.fst h).symm
      have hl : r.last_name = some ((w :: w2 :: ws2).getLast hPne) :=
        (congrArg Prod.snd h).symm
      rw [hl, hf]
      have hjoin :
          List.intercalate [' '] (w :: w2 :: ws2).dropLast ++
              ' ' :: (w :: w2 :: ws2).getLast hPne =
            List.intercalate [' '] (w :: w2 :: ws2) := by
        rw [← intercalate_concat _ _ hdne, hsplit]
      show parse_full_name (List.intercalate [' '] (w :: w2 :: ws2).dropLast ++
        ' ' :: (w :: w2 :: ws2).getLast hPne) = _
      rw [hjoin]
      have hwords : pyWords (pyStrip (List.intercalate [' '] (w :: w2 :: ws2))) =
          (w :: w2 :: ws2).dropLast ++ [(w :: w2 :: ws2).getLast hPne] := by
        rw [pyWords_pyStrip,
          pyWords_intercalate _ (fun v hv => pyWords_sound (pyStrip name) v (hp ▸ hv)),
          hsplit]
      exact parse_full_name_of_many _ _ _ hwords hdne

/-- A parsed last name is one of the split words, hence nonempty. -/
theorem parse_last_ne_nil (s : Str) (f : Str) (l : Str)
    (h : parse_full_name s = (f, some l)) : l ≠ [] := by
  rcases hp : pyWords (pyStrip s) with _ | ⟨w, ws⟩
  · rw [parse_full_name_of_nil s hp] at h
    exact absurd (congrArg Prod.snd h) (by simp)
  · rcases hws : ws with _ | ⟨w2, ws2⟩
    · subst hws
      rw [parse_full_name_of_one s w hp] at h
      exact absurd (congrArg Prod.snd h) (by simp)
    · subst hws
      have hPne : (w :: w2 :: ws2 : List Str) ≠ [] := List.cons_ne_nil _ _
      have hsplit : (w :: w2 :: ws2).dropLast ++ [(w :: w2 :: ws2).getLast hPne] =
          w :: w2 :: ws2 := List.dropLast_append_getLast hPne
      have hparse := parse_full_name_of_many s (w :: w2 :: ws2).dropLast
        ((w :: w2 :: ws2).getLast hPne) (by rw [hp, hsplit]) (by simp)
      rw [hparse] at h
      have hl : (w :: w2 :: ws2).getLast hPne = l := by
        have := congrArg Prod.snd h
        simpa using this
      have hmem : l ∈ pyWords (pyStrip s) := by
        rw [hp, ← hl]
        exact List.getLast_mem hPne
      exact (pyWords_sound (pyStrip s) l hmem).1

/-!
## Claim theorems
-/

/-- C3: name parsing trims the input and splits it on whitespace; zero tokens
give `first_name = ""` and `last_name = None`; one token becomes the first
name with no last name; with two or more tokens the last token is the last
name and the preceding tokens joined by single spaces are the first name. -/
theorem c3_parse_full_name_spec (s : Str) :
    (pyWords (pyStrip s) = [] → parse_full_name s = ([], none)) ∧
    (∀ t, pyWords (pyStrip s) = [t] → parse_full_name s = (t, none)) ∧
    (∀ ts t, pyWords (pyStrip s) = ts ++ [t] → ts ≠ [] →
      parse_full_name s = (List.intercalate [' '] ts, some t)) :=
  ⟨parse_full_name_of_nil s, fun t h => parse_full_name_of_one s t h,
    fun ts t h hne => parse_full_name_of_many s ts t h hne⟩

/-- Witness for C3 at the three-token name `" Jane  van Doe "`. -/
theorem c3_parse_full_name_spec_witness :
    parse_full_name (str " Jane  van Doe ") = (str "Jane van", some (str "Doe")) :=
  ((c3_parse_full_name_spec (str " Jane  van Doe ")).2.2
    [str "Jane", str "van"] (str "Doe") (by decide) (by decide)).trans (by decide)

/-- C4: normalization lower-cases and strips the email, deletes every
non-digit of the phone, and is idempotent: re-normalizing its own output
(name re-formed from first and last name) yields the same output. -/
theorem c4_normalize_lead_data_idem (name email phone : Str) :
    (normalize_lead_data name email phone).email = pyStrip (pyLower email) ∧
    (∀ c ∈ (normalize_lead_data name email phone).email, asciiLower c = c) ∧
    (∀ c, (normalize_lead_data name email phone).email.head? = some c →
      isPySpace c = false) ∧
    (∀ c, (normalize_lead_data name email phone).email.getLast? = some c →
      isPySpace c = false) ∧
    (normalize_lead_data name email phone).phone = keepDigits phone ∧
    (∀ c ∈ (normalize_lead_data name email phone).phone, c.isDigit = true) ∧
    normalize_lead_data (rebuild_name (normalize_lead_data name email phone))
        (normalize_lead_data name email phone).email
        (normalize_lead_data name email phone).phone =
      normalize_lead_data name email phone := by
  refine ⟨rfl, ?_, ?_, ?_, rfl, ?_, ?_⟩
  · intro c hc
    exact mem_pyLower_fixed email c (mem_pyStrip (pyLower email) c hc)
  · exact head?_pyStrip_false (pyLower email)
  · exact getLast?_pyStrip_false (pyLower email)
  · intro c hc
    simp only [normalize_lead_data, keepDigits, List.mem_filter] at hc
    exact hc.2
  · have hr := parse_full_name_rebuild name
      (normalize_lead_data name email phone) rfl
    simp only [normalize_lead_data] at hr ⊢
    rw [hr, email_norm_idem, keepDigits_idem]

/-- Witness for C4 at a concrete raw lead. -/
theorem c4_normalize_lead_data_idem_witness :
    normalize_lead_data
        (rebuild_name (normalize_lead_data (str "Jane Doe")
          (str " jane@EXAMPLE.com ") (str "+1 (555) 123-4567")))
        (normalize_lead_data (str "Jane Doe") (str " jane@EXAMPLE.com ")
          (str "+1 (555) 123-4567")).email
        (normalize_lead_data (str "Jane Doe") (str " jane@EXAMPLE.com ")
          (str "+1 (555) 123-4567")).phone =
      normalize_lead_data (str "Jane Doe") (str " jane@EXAMPLE.com ")
        (str "+1 (555) 123-4567") ∧
    asciiLower 'j' = 'j' :=
  ⟨(c4_normalize_lead_data_idem (str "Jane Doe") (str " jane@EXAMPLE.com ")
      (str "+1 (555) 123-4567")).2.2.2.2.2.2,
    (c4_normalize_lead_data_idem (str "Jane Doe") (str " jane@EXAMPLE.com ")
      (str "+1 (555) 123-4567")).2.1 'j' (by decide)⟩

/-- C10: for every normalized lead record, the Zoho adapter's create_lead
sends exactly one payload whose `Last_Name` is non-empty: the record's
last name when present, else the first name, else `"Unknown"`. -/
theorem c10_zoho_create_last_name (name email phone tok : Str)
    (resp : ZohoCreateResponse) :
    (zoho_create_lead (some tok) (normalize_lead_data name email phone) resp).2 =
      [zoho_create_payload (normalize_lead_data name email phone)] ∧
    (zoho_create_payload (normalize_lead_data name email phone)).Last_Name ≠ [] ∧
    (∀ l, (normalize_lead_data name email phone).last_name = some l →
      (zoho_create_payload (normalize_lead_data name email phone)).Last_Name = l) ∧
    ((normalize_lead_data name email phone).last_name = none →
      (normalize_lead_data name email phone).first_name ≠ [] →
      (zoho_create_payload (normalize_lead_data name email phone)).Last_Name =
        (normalize_lead_data name email phone).first_name) ∧
    ((normalize_lead_data name email phone).last_name = none →
      (normalize_lead_data name email phone).first_name = [] →
      (zoho_create_payload (normalize_lead_data name email phone)).Last_Name =
        str "Unknown") := by
  have hlast : ∀ l, (normalize_lead_data name email phone).last_name = some l →
      l ≠ [] := by
    intro l hl
    have hp : parse_full_name name = ((parse_full_name name).1, some l) := by
      have : (parse_full_name name).2 = some l := hl
      rw [← this]
    exact parse_last_ne_nil name (parse_full_name name).1 l hp
  have hmap : ∀ l, (normalize_lead_data name email phone).last_name = some l →
      zoho_last_name (normalize_lead_data name email phone) = l := by
    intro l hl
    have hne := hlast l hl
    unfold zoho_last_name
    rw [hl]
    simp [List.isEmpty_iff, hne]
  refine ⟨by cases resp <;> rfl, ?_, hmap, ?_, ?_⟩
  · rcases hl : (normalize_lead_data name email phone).last_name with _ | l
    · unfold zoho_create_payload zoho_last_name
      rw [hl]
      rcases hf : (normalize_lead_data name email phone).first_name with _ | ⟨c, cs⟩
      · simp [str]
      · simp
    · rw [show (zoho_create_payload (normalize_lead_data name email phone)).Last_Name =
          zoho_last_name (normalize_lead_data name email phone) from rfl,
        hmap l hl]
      exact hlast l hl
  · intro hl hf
    unfold zoho_create_payload zoho_last_name
    rw [hl]
    simp [List.isEmpty_iff, hf]
  · intro hl hf
    unfold zoho_create_payload zoho_last_name
    rw [hl]
    simp [List.isEmpty_iff, hf]

/-- Witness for C10: a one-token name, so the payload falls back to the
first name. -/
theorem c10_zoho_create_last_name_witness :
    (zoho_create_lead (some (str "tok"))
        (normalize_lead_data (str "Madonna") (str "m@x.com") (str "1"))
        (.success (str "id1"))).2 =
      [zoho_create_payload (normalize_lead_data (str "Madonna") (str "m@x.com")
        (str "1"))] ∧
    (zoho_create_payload (normalize_lead_data (str "Madonna") (str "m@x.com")
      (str "1"))).Last_Name =
      (normalize_lead_data (str "Madonna") (str "m@x.com") (str "1")).first_name :=
  ⟨(c10_zoho_create_last_name (str "Madonna") (str "m@x.com") (str "1")
      (str "tok") (.success (str "id1"))).1,
    (c10_zoho_create_last_name (str "Madonna") (str "m@x.com") (str "1")
      (str "tok") (.success (str "id1"))).2.2.2.1 (by decide) (by decide)⟩

/-- C1: `get_access_token` returns a valid cached token without a network
call; otherwise, with a persisted refresh token and complete credentials, it
performs exactly one refresh grant; on success it caches and returns the new
token with expiry `now + expires_in - 60`; on an `invalid_grant` or
`invalid_code` provider error it deletes the refresh-token file and returns
`None`. -/
theorem c1_get_access_token_spec (cfg : ZohoAuthConfig) (st : AuthState)
    (now : Int) (resp : TokenResponse) :
    (optTruthy st.current_access_token = true →
      now < st.access_token_expiry_time →
      get_access_token cfg st now resp = ⟨st.current_access_token, st, 0⟩) ∧
    (¬(optTruthy st.current_access_token = true ∧
        now < st.access_token_expiry_time) →
      ∀ contents, st.refresh_token_file = some contents →
      (pyStrip contents).isEmpty = false →
      cfg.client_id.isEmpty = false → cfg.client_secret.isEmpty = false →
      cfg.accounts_url.isEmpty = false →
      (get_access_token cfg st now resp).net_calls = 1 ∧
      (∀ tok e, resp = .ok tok e →
        get_access_token cfg st now resp =
          ⟨some tok,
            { st with
              current_access_token := some tok
              access_token_expiry_time := now + e - 60 }, 1⟩) ∧
      (∀ err, resp = .err err →
        (err = str "invalid_code" ∨ err = str "invalid_grant") →
        get_access_token cfg st now resp =
          ⟨none, { st with refresh_token_file := none }, 1⟩)) := by
  constructor
  · intro h1 h2
    unfold get_access_token
    rw [if_pos ⟨h1, h2⟩]
  · intro hstale contents hfile hrt hc1 hc2 hc3
    have hbase : get_access_token cfg st now resp =
        (match resp with
          | .ok tok e =>
            (⟨some tok,
              { st with
                current_access_token := some tok
                access_token_expiry_time := now + e - 60 }, 1⟩ : AuthResult)
          | .err e =>
            if e = str "invalid_code" ∨ e = str "invalid_grant" then
              ⟨none, { st with refresh_token_file := none }, 1⟩
            else ⟨none, st, 1⟩
          | .httpError => ⟨none, st, 1⟩) := by
      unfold get_access_token
      rw [if_neg hstale, hfile]
      simp only [hrt, hc1, hc2, hc3, Bool.or_self, if_neg (Bool.false_ne_true)]
    refine ⟨?_, ?_, ?_⟩
    · rw [hbase]
      cases resp with
      | ok tok e => rfl
      | err e =>
        by_cases he : e = str "invalid_code" ∨ e = str "invalid_grant"
        · simp only [if_pos he]
        · simp only [if_neg he]
      | httpError => rfl
    · intro tok e hresp
      subst hresp
      rw [hbase]
    · intro err hresp hinv
      subst hresp
      rw [hbase]
      exact if_pos hinv

/-- Witness for C1: the cached branch, a successful refresh, and an
`invalid_grant` error (which deletes the refresh-token file). -/
theorem c1_get_access_token_spec_witness :
    get_access_token authCfg0 ⟨some (str "T"), 100, some (str "rt0")⟩ 50
        .httpError =
      ⟨some (str "T"), ⟨some (str "T"), 100, some (str "rt0")⟩, 0⟩ ∧
    get_access_token authCfg0 staleAuthSt 200 (.ok (str "NEW") 3600) =
      ⟨some (str "NEW"), ⟨some (str "NEW"), 200 + 3600 - 60, some (str "rt0")⟩, 1⟩ ∧
    get_access_token authCfg0 staleAuthSt 200 (.err (str "invalid_grant")) =
      ⟨none, ⟨some (str "OLD"), 100, none⟩, 1⟩ := by
  refine ⟨?_, ?_, ?_⟩
  · exact (c1_get_access_token_spec authCfg0 ⟨some (str "T"), 100, some (str "rt0")⟩
      50 .httpError).1 (by decide) (by decide)
  · exact ((c1_get_access_token_spec authCfg0 staleAuthSt 200
      (.ok (str "NEW") 3600)).2 (by decide) (str "rt0") rfl (by decide)
      (by decide) (by decide) (by decide)).2.1 (str "NEW") 3600 rfl
  · exact ((c1_get_access_token_spec authCfg0 staleAuthSt 200
      (.err (str "invalid_grant"))).2 (by decide) (str "rt0") rfl (by decide)
      (by decide) (by decide) (by decide)).2.2 (str "invalid_grant") rfl
      (Or.inr rfl)

/-- C7: a token cached by a successful refresh at time `t1` with provider
lifetime `e` (provider-reported expiry `t1 + e`) is only ever returned from
the cache strictly more than the 60-second safety margin before that expiry;
within the margin the cached-token check fails and a refresh happens
instead. -/
theorem c7_access_token_safety_margin (cfg : ZohoAuthConfig) (st1 : AuthState)
    (t1 : Int) (tok : Str) (e : Int) (st2 : AuthState)
    (hrefresh : get_access_token cfg st1 t1 (.ok tok e) = ⟨some tok, st2, 1⟩)
    (now : Int) (resp : TokenResponse)
    (hcached : optTruthy st2.current_access_token = true)
    (hvalid : now < st2.access_token_expiry_time) :
    get_access_token cfg st2 now resp = ⟨st2.current_access_token, st2, 0⟩ ∧
    now + 60 < t1 + e := by
  have hexp : st2.access_token_expiry_time = t1 + e - 60 := by
    unfold get_access_token at hrefresh
    simp only [List.isEmpty_iff] at hrefresh
    repeat' split at hrefresh
    all_goals
      try (have hn := congrArg AuthResult.net_calls hrefresh
           simp at hn)
    all_goals
      exact (congrArg AuthState.access_token_expiry_time
        (congrArg AuthResult.state hrefresh)).symm
  constructor
  · unfold get_access_token
    rw [if_pos ⟨hcached, hvalid⟩]
  · rw [hexp] at hvalid
    omega

/-- Witness for C7: refresh at `t1 = 1000` with `expires_in = 3600`; the
cache may still be used at `now = 2000`, which is 2600 > 60 seconds before
the provider-reported expiry 4600. -/
theorem c7_access_token_safety_margin_witness :
    get_access_token authCfg0 ⟨some (str "NEW"), 1000 + 3600 - 60, some (str "rt0")⟩
        2000 .httpError =
      ⟨some (str "NEW"), ⟨some (str "NEW"), 1000 + 3600 - 60, some (str "rt0")⟩, 0⟩ ∧
    (2000 : Int) + 60 < 1000 + 3600 := by
  have h := c7_access_token_safety_margin authCfg0 staleAuthSt 1000 (str "NEW")
    3600 ⟨some (str "NEW"), 1000 + 3600 - 60, some (str "rt0")⟩ (by decide)
    2000 .httpError (by decide) (by decide)
  exact h

/-- C9 (counterexample): `get_access_token` has no single-flight guard: with
a stale cache and two concurrent callers there is an interleaving (both pass
the cached-token check before either commits) issuing TWO refresh network
calls, so "exactly one refresh network call" fails. -/
theorem c9_single_flight_counterexample :
    ¬(∀ sched : List Bool,
      ((run_two authCfg0 200 (.ok (str "NEW") 3600) (.ok (str "NEW") 3600)
          staleShared ⟨.check, none⟩ ⟨.check, none⟩ sched).2.1.pc = .done ∧
        (run_two authCfg0 200 (.ok (str "NEW") 3600) (.ok (str "NEW") 3600)
          staleShared ⟨.check, none⟩ ⟨.check, none⟩ sched).2.2.pc = .done) →
      (run_two authCfg0 200 (.ok (str "NEW") 3600) (.ok (str "NEW") 3600)
        staleShared ⟨.check, none⟩ ⟨.check, none⟩ sched).1.net_calls = 1) := by
  intro h
  have h2 := h [false, true, false, true, false, true] (by decide)
  exact absurd h2 (by decide)

/-- C9 (amended): each concurrent caller that sees the stale cache issues its
own refresh call: under the fully interleaved schedule two POSTs are issued
(both callers still end with the new token); only under the serialized
schedule is one POST issued, the second caller then reading the fresh
cache. -/
theorem c9_refresh_not_single_flight :
    run_two authCfg0 200 (.ok (str "NEW") 3600) (.ok (str "NEW") 3600)
        staleShared ⟨.check, none⟩ ⟨.check, none⟩
        [false, true, false, true, false, true] =
      (⟨⟨some (str "NEW"), 3740, some (str "rt0")⟩, 2⟩,
        ⟨.done, some (str "NEW")⟩, ⟨.done, some (str "NEW")⟩) ∧
    run_two authCfg0 200 (.ok (str "NEW") 3600) (.ok (str "NEW") 3600)
        staleShared ⟨.check, none⟩ ⟨.check, none⟩
        [false, false, false, true] =
      (⟨⟨some (str "NEW"), 3740, some (str "rt0")⟩, 1⟩,
        ⟨.done, some (str "NEW")⟩, ⟨.done, some (str "NEW")⟩) := by
  exact ⟨by decide, by decide⟩

/-- C5: whenever a tenant's `crm` is falsy, `"none"`, unsupported, or its
required credential fields are missing, `CRMRouter` construction succeeds
with no adapter bound, and every `search_lead`/`create_lead` call returns
`None` without delegating to any adapter (zero network calls). -/
theorem c5_router_degrades_to_noop (cfg : TenantConfig)
    (h : optTruthy cfg.crm = false ∨ cfg.crm = some (str "none") ∨
      (cfg.crm = some (str "zoho") ∧
        (optTruthy (cfg.zoho.getD ⟨none, none, none, none⟩).client_id &&
          optTruthy (cfg.zoho.getD ⟨none, none, none, none⟩).client_secret &&
          optTruthy (cfg.zoho.getD ⟨none, none, none, none⟩).accounts_url &&
          optTruthy (cfg.zoho.getD ⟨none, none, none, none⟩).api_url) = false) ∨
      (cfg.crm = some (str "hubspot") ∧
        optTruthy (cfg.hubspot.getD ⟨none⟩).api_key = false) ∨
      (optTruthy cfg.crm = true ∧ cfg.crm ≠ some (str "none") ∧
        cfg.crm ≠ some (str "zoho") ∧ cfg.crm ≠ some (str "hubspot"))) :
    crmRouter_init cfg = .ok ⟨cfg.crm, none⟩ ∧
    (∀ impl phone, router_search ⟨cfg.crm, none⟩ impl phone = (none, 0)) ∧
    (∀ impl ld, router_create ⟨cfg.crm, none⟩ impl ld = (none, 0)) := by
  have hnoop : get_active_crm_instance ⟨cfg.crm, none⟩ = none := by
    unfold get_active_crm_instance
    split <;> rfl
  refine ⟨?_, ?_, ?_⟩
  · unfold crmRouter_init
    rcases h with h | h | ⟨h1, h2⟩ | ⟨h1, h2⟩ | ⟨h1, h2, h3, h4⟩
    · rw [if_pos]
      simp [h]
    · rw [if_pos]
      simp [h]
    · rw [if_neg, if_pos h1, if_pos]
      · simp [h2]
      · rw [h1] at *
        simp_all [optTruthy, str]
    · rw [if_neg, if_neg, if_pos h1, if_pos]
      · simp [h2]
      · rw [h1] at *
        simp_all [optTruthy, str]
      · rw [h1] at *
        simp_all [optTruthy, str]
    · rw [if_neg, if_neg h3, if_neg h4]
      simp [h2, h1]
  · intro impl phone
    unfold router_search
    rw [hnoop]
  · intro impl ld
    unfold router_create
    rw [hnoop]

/-- Witness for C5: a tenant with `crm = "none"`; the router binds nothing
and both operations are no-ops even under an adapter implementation that
would make network calls. -/
theorem c5_router_degrades_to_noop_witness :
    crmRouter_init ⟨some (str "none"), some (str "t1"), none, none⟩ =
      .ok ⟨some (str "none"), none⟩ ∧
    router_search ⟨some (str "none"), none⟩
      (fun _ _ => (some ⟨some (str "x"), none, none, none⟩, 7)) (str "555") =
      (none, 0) ∧
    router_create ⟨some (str "none"), none⟩
      (fun _ _ => (some ⟨some (str "id")⟩, 7))
      ⟨str "J", none, str "j@x.com", str "5"⟩ = (none, 0) :=
  ⟨(c5_router_degrades_to_noop ⟨some (str "none"), some (str "t1"), none, none⟩
      (Or.inr (Or.inl rfl))).1,
    (c5_router_degrades_to_noop ⟨some (str "none"), some (str "t1"), none, none⟩
      (Or.inr (Or.inl rfl))).2.1
      (fun _ _ => (some ⟨some (str "x"), none, none, none⟩, 7)) (str "555"),
    (c5_router_degrades_to_noop ⟨some (str "none"), some (str "t1"), none, none⟩
      (Or.inr (Or.inl rfl))).2.2
      (fun _ _ => (some ⟨some (str "id")⟩, 7))
      ⟨str "J", none, str "j@x.com", str "5"⟩⟩

/-- C6: a missing configuration file or one that fails to parse as JSON
makes tenant loading return the empty tenant set `{"tenants": []}` and
report an error (the embedding is total: no exception escapes). -/
theorem c6_tenant_loader_error_handling (prev : List (Str × TenantConfig))
    (file : Option Str) (parseJson : Str → Option TenantsJson)
    (h : file = none ∨
      ∃ contents, file = some contents ∧ parseJson contents = none) :
    (load_all_tenants_config prev file parseJson).config = ⟨[]⟩ ∧
    (load_all_tenants_config prev file parseJson).error_reported = true := by
  rcases h with h | ⟨contents, hf, hp⟩
  · subst h
    exact ⟨rfl, rfl⟩
  · subst hf
    simp [load_all_tenants_config, hp]

/-- Witness for C6: a missing file and an unparsable file. -/
theorem c6_tenant_loader_error_handling_witness :
    (load_all_tenants_config [] none (fun _ => none)).config = ⟨[]⟩ ∧
    (load_all_tenants_config [] (some (str "not json"))
      (fun _ => none)).error_reported = true :=
  ⟨(c6_tenant_loader_error_handling [] none (fun _ => none) (Or.inl rfl)).1,
    (c6_tenant_loader_error_handling [] (some (str "not json")) (fun _ => none)
      (Or.inr ⟨str "not json", rfl, rfl⟩)).2⟩

/-- C2 (counterexample): the handler only accepts `/set_llm gemini` and
`/set_llm ollama`; the claimed input `/set_llm modelA` is answered with
"Invalid LLM choice" and leaves the machine in INITIAL, not
AWAITING_NAME. -/
theorem c2_set_llm_modelA_counterexample :
    (handle_message botEnvNoLead (initBotState (str "15550001111"))
        (str "/set_llm modelA")).state.crm.phase = Phase.initial ∧
    (handle_message botEnvNoLead (initBotState (str "15550001111"))
        (str "/set_llm modelA")).state.crm.phase ≠ Phase.awaitingName ∧
    (handle_message botEnvNoLead (initBotState (str "15550001111"))
        (str "/set_llm modelA")).reply =
      str "Invalid LLM choice. Please use /set_llm gemini or /set_llm ollama." := by
  refine ⟨by decide, by decide, by decide⟩

/-- C2 (amended): with a supported model, `/set_llm gemini` with no matching
lead moves INITIAL → AWAITING_NAME; "Jane Doe" moves to AWAITING_EMAIL
storing the name; "jane@EXAMPLE.com " with a successful creation moves to
LEAD_COLLECTED, and the record submitted to the CRM is the normalized
`{first_name: "Jane", last_name: "Doe", email: "jane@example.com"}` (with
the user id's digits as phone). -/
theorem c2_lead_capture_scenario :
    (handle_message botEnvNoLead (initBotState (str "15550001111"))
        (str "/set_llm gemini")).state.crm.phase = Phase.awaitingName ∧
    (handle_message botEnvNoLead (initBotState (str "15550001111"))
        (str "/set_llm gemini")).search_calls = [str "15550001111"] ∧
    (handle_message botEnvNoLead
        (handle_message botEnvNoLead (initBotState (str "15550001111"))
          (str "/set_llm gemini")).state
        (str "Jane Doe")).state.crm.phase = Phase.awaitingEmail ∧
    (handle_message botEnvNoLead
        (handle_message botEnvNoLead (initBotState (str "15550001111"))
          (str "/set_llm gemini")).state
        (str "Jane Doe")).state.crm.name = some (str "Jane Doe") ∧
    (handle_message botEnvNoLead
        (handle_message botEnvNoLead
          (handle_message botEnvNoLead (initBotState (str "15550001111"))
            (str "/set_llm gemini")).state
          (str "Jane Doe")).state
        (str "jane@EXAMPLE.com ")).state.crm.phase = Phase.leadCollected ∧
    (handle_message botEnvNoLead
        (handle_message botEnvNoLead
          (handle_message botEnvNoLead (initBotState (str "15550001111"))
            (str "/set_llm gemini")).state
          (str "Jane Doe")).state
        (str "jane@EXAMPLE.com ")).create_calls =
      [⟨str "Jane", some (str "Doe"), str "jane@example.com",
        str "15550001111"⟩] ∧
    (handle_message botEnvNoLead
        (handle_message botEnvNoLead
          (handle_message botEnvNoLead (initBotState (str "15550001111"))
            (str "/set_llm gemini")).state
          (str "Jane Doe")).state
        (str "jane@EXAMPLE.com ")).state.crm.lead_id = some (str "L1") := by
  refine ⟨by decide, by decide, by decide, by decide, by decide, by decide,
    by decide⟩

/-- C8 (counterexample): after `/enable_rag` from INITIAL the machine is in
RAG_AWAITING_URL with RAG not yet enabled; `/disable_rag` then answers "Web
RAG is not currently enabled." and leaves the machine in RAG_AWAITING_URL
instead of moving it to INITIAL (lead_id is unset). -/
theorem c8_disable_rag_counterexample :
    (handle_message botEnvNoLead
        (handle_message botEnvNoLead (initBotState (str "u1"))
          (str "/enable_rag")).state
        (str "/disable_rag")).state.crm.phase = Phase.ragAwaitingUrl ∧
    (handle_message botEnvNoLead (initBotState (str "u1"))
        (str "/enable_rag")).state.crm.lead_id = none ∧
    (handle_message botEnvNoLead
        (handle_message botEnvNoLead (initBotState (str "u1"))
          (str "/enable_rag")).state
        (str "/disable_rag")).reply = str "Web RAG is not currently enabled." ∧
    Phase.ragAwaitingUrl ≠ Phase.initial := by
  refine ⟨by decide, by decide, by decide, by decide⟩

/-- C8 (amended): `/disable_rag` acts only when RAG is currently enabled: it
then clears the RAG fields and, only if the state was RAG_AWAITING_URL,
moves to LEAD_COLLECTED (lead_id set) or INITIAL, otherwise keeping the
state; when RAG is not enabled — in particular in RAG_AWAITING_URL reached
via `/enable_rag` — it changes nothing, so the machine can stay in
RAG_AWAITING_URL. -/
theorem c8_disable_rag_behavior (env : BotEnv) (st : BotState) :
    (st.rag.enabled = true →
      (handle_message env st (str "/disable_rag")).state =
        { st with
          rag := ⟨false, none, none, false⟩
          crm := { st.crm with phase :=
            if st.crm.phase = .ragAwaitingUrl then
              (if optTruthy st.crm.lead_id then .leadCollected else .initial)
            else st.crm.phase } }) ∧
    (st.rag.enabled = false →
      (handle_message env st (str "/disable_rag")).state = st) := by
  have e1 : ¬(pyLower (str "/disable_rag") = str "/reset") := by decide
  have e2 : ¬((str "/set_llm ").isPrefixOf (pyLower (str "/disable_rag")) = true) := by
    decide
  have e3 : ¬(pyLower (str "/disable_rag") = str "/enable_rag") := by decide
  have e4 : pyLower (str "/disable_rag") = str "/disable_rag" := by decide
  constructor
  · intro hen
    simp only [handle_message]
    rw [if_neg e1, if_neg e2, if_neg e3, if_pos e4, if_pos hen]
  · intro hen
    simp only [handle_message]
    rw [if_neg e1, if_neg e2, if_neg e3, if_pos e4,
      if_neg (by rw [hen]; exact Bool.false_ne_true)]

/-- Witness for C8 at two concrete states: RAG enabled in INITIAL (fields
cleared, state kept) and RAG disabled (nothing changes). -/
theorem c8_disable_rag_behavior_witness :
    (handle_message botEnvNoLead
        ⟨str "u2", none, ⟨true, some (str "http://x"), some 3, false⟩,
          ⟨.initial, none, none, str "u2", none, none⟩⟩
        (str "/disable_rag")).state =
      ⟨str "u2", none, ⟨false, none, none, false⟩,
        ⟨.initial, none, none, str "u2", none, none⟩⟩ ∧
    (handle_message botEnvNoLead
        ⟨str "u3", none, ⟨false, none, none, false⟩,
          ⟨.awaitingName, none, none, str "u3", none, none⟩⟩
        (str "/disable_rag")).state =
      ⟨str "u3", none, ⟨false, none, none, false⟩,
        ⟨.awaitingName, none, none, str "u3", none, none⟩⟩ :=
  ⟨((c8_disable_rag_behavior botEnvNoLead
      ⟨str "u2", none, ⟨true, some (str "http://x"), some 3, false⟩,
        ⟨.initial, none, none, str "u2", none, none⟩⟩).1 rfl).trans (by decide),
    (c8_disable_rag_behavior botEnvNoLead
      ⟨str "u3", none, ⟨false, none, none, false⟩,
        ⟨.awaitingName, none, none, str "u3", none, none⟩⟩).2 rfl⟩
